import Mathlib

/-!
Shallow embedding of the Stream Deck pomodoro timer action
(`src/actions/timer.ts`, zod-schema variant): the settings resolver
(`TimerSettingsSchema`), the six-state timer machine (`handleShortPress`,
`handleTimerComplete`, `reset`, `advanceNextStep`, the key-down/key-up
long-press disambiguation, the countdown tick installed by `startTimer`),
and the render signature / change-suppression logic of `updateView`.

JavaScript numbers are modelled as `Int` (millisecond timestamps, whole
seconds) and `ℚ` (fractional seconds and opacities); `setInterval` /
`setTimeout` handles are modelled as `Bool` flags recording whether the
periodic callback (countdown tick, pause-pulse redraw, hold timeout) is
currently scheduled.
-/

namespace Pomodoro

/-! ### Settings resolver (`TimerSettingsSchema`) -/

/-- Digit run to a natural number, most significant digit first. -/
def digitsToNat (cs : List Char) : Nat :=
  cs.foldl (fun acc c => acc * 10 + (c.toNat - 48)) 0

/-- Model of JavaScript `parseInt` on decimal inputs: skip leading
whitespace, read an optional sign and the longest leading digit run,
ignore the rest; `none` models `NaN` (no digits found).  (The hexadecimal
`0x` prefix of `parseInt` is not modelled; no caller supplies it.) -/
def parseIntJS (s : String) : Option Int :=
  let cs := s.data.dropWhile Char.isWhitespace
  match cs with
  | '-' :: rest =>
    let ds := rest.takeWhile Char.isDigit
    if ds.isEmpty then none else some (-(digitsToNat ds : Int))
  | '+' :: rest =>
    let ds := rest.takeWhile Char.isDigit
    if ds.isEmpty then none else some (digitsToNat ds : Int)
  | _ =>
    let ds := cs.takeWhile Char.isDigit
    if ds.isEmpty then none else some (digitsToNat ds : Int)

/-- The raw settings object delivered by the property inspector
(`RawTimerSettings` = `z.input` of the schema): every field optional,
numeric fields arriving as strings. -/
structure RawTimerSettings where
  workTime : Option String
  breakTime : Option String
  numCycles : Option String
  soundEnabled : Option Bool
deriving DecidableEq, Repr

/-- The validated settings (`ParsedTimerSettings` = `z.output` of the
schema). -/
structure ParsedTimerSettings where
  workTime : Nat
  breakTime : Nat
  numCycles : Nat
  soundEnabled : Bool
deriving DecidableEq, Repr

/-- `workTime` transform: `parseInt(val ?? "25")`, falling back to 25 when
the result is `NaN` or `< 1`. -/
def resolveWorkTime (v : Option String) : Nat :=
  match parseIntJS (v.getD "25") with
  | none => 25
  | some p => if p < 1 then 25 else p.toNat

/-- `breakTime` transform: `parseInt(val ?? "5")`, falling back to 5 when
the result is `NaN` or `< 1`. -/
def resolveBreakTime (v : Option String) : Nat :=
  match parseIntJS (v.getD "5") with
  | none => 5
  | some p => if p < 1 then 5 else p.toNat

/-- `numCycles` transform: `Math.min(4, Math.max(1, isNaN(parsed) ? 4 :
parsed))` over `parseInt(val ?? "4")`. -/
def resolveNumCycles (v : Option String) : Nat :=
  let p : Int := (parseIntJS (v.getD "4")).getD 4
  (min 4 (max 1 p)).toNat

/-- `parseSettings` / `TimerSettingsSchema.parse`: total resolution of a
raw settings object; `soundEnabled` defaults to `false`. -/
def parseSettings (r : RawTimerSettings) : ParsedTimerSettings :=
  { workTime := resolveWorkTime r.workTime
    breakTime := resolveBreakTime r.breakTime
    numCycles := resolveNumCycles r.numCycles
    soundEnabled := r.soundEnabled.getD false }

/-! ### Timer engine state -/

/-- The six-variant `TimerState` enumeration. -/
inductive TimerState where
  | idleWork
  | runningWork
  | pausedWork
  | idleBreak
  | runningBreak
  | pausedBreak
deriving DecidableEq, Repr

/-- `[RUNNING_WORK, RUNNING_BREAK].includes(state)`. -/
def isRunningState : TimerState → Bool
  | .runningWork | .runningBreak => true
  | _ => false

/-- `state === PAUSED_WORK || state === PAUSED_BREAK`. -/
def isPausedState : TimerState → Bool
  | .pausedWork | .pausedBreak => true
  | _ => false

/-- `[RUNNING_WORK, IDLE_WORK, PAUSED_WORK].includes(state)` — the
work-family test used by `getTotalSecondsForCurrentState` and the
colour scheme. -/
def isWorkFamily : TimerState → Bool
  | .runningWork | .idleWork | .pausedWork => true
  | _ => false

/-- Per-instance mutable state (`TimerContext`).  The three
`NodeJS.Timeout` handles become `Bool` flags: `timer` (countdown
interval scheduled), `pauseAnimationTimer` (pause-pulse interval
scheduled), `holdTimeout` (long-press one-shot pending). -/
structure TimerContext where
  state : TimerState
  currentCycle : Nat
  targetEndTime : Int
  remainingSeconds : Int
  timer : Bool
  pauseAnimationTimer : Bool
  holdTimeout : Bool
  didHoldAction : Bool
deriving DecidableEq, Repr

/-- The context created by `getContext` on first use: `IDLE_WORK`,
cycle 0, `targetEndTime` 0, `remainingSeconds = 25 * 60`, no timers. -/
def initialContext : TimerContext :=
  { state := .idleWork
    currentCycle := 0
    targetEndTime := 0
    remainingSeconds := 25 * 60
    timer := false
    pauseAnimationTimer := false
    holdTimeout := false
    didHoldAction := false }

/-! ### Timer engine operations -/

/-- `stopTimer`: clear the countdown interval (leaves `targetEndTime`
untouched). -/
def stopTimer (c : TimerContext) : TimerContext :=
  { c with timer := false }

/-- `stopPauseAnimation`: clear the pause-pulse interval. -/
def stopPauseAnimation (c : TimerContext) : TimerContext :=
  { c with pauseAnimationTimer := false }

/-- `startPauseAnimation`: (re)schedule the pause-pulse interval. -/
def startPauseAnimation (c : TimerContext) : TimerContext :=
  { c with pauseAnimationTimer := true }

/-- `startTimer(ev, ctx, durationSeconds, settings)`: clear any previous
countdown, stop the pause animation, anchor
`targetEndTime = Date.now() + durationSeconds * 1000` and schedule the
50 ms countdown interval. -/
def startTimer (now : Int) (durationSeconds : Int) (c : TimerContext) : TimerContext :=
  { c with
    pauseAnimationTimer := false
    targetEndTime := now + durationSeconds * 1000
    timer := true }

/-- `handleTimerComplete`: work-family phases go to `IDLE_BREAK` with
`breakTime * 60` seconds loaded; break-family phases go to `IDLE_WORK`
with the cycle advanced `(currentCycle + 1) % numCycles` and
`workTime * 60` seconds loaded.  (The sound side effect is outside the
state.) -/
def handleTimerComplete (s : ParsedTimerSettings) (c : TimerContext) : TimerContext :=
  match c.state with
  | .runningWork | .pausedWork =>
    { c with state := .idleBreak, remainingSeconds := (s.breakTime * 60 : Int) }
  | .runningBreak | .pausedBreak =>
    { c with
      state := .idleWork
      currentCycle := (c.currentCycle + 1) % s.numCycles
      remainingSeconds := (s.workTime * 60 : Int) }
  | _ => c

/-- `handleShortPress`: the six-row transition switch. -/
def handleShortPress (now : Int) (s : ParsedTimerSettings) (c : TimerContext) : TimerContext :=
  match c.state with
  | .idleWork =>
    startTimer now (s.workTime * 60)
      { c with state := .runningWork, remainingSeconds := (s.workTime * 60 : Int) }
  | .runningWork =>
    startPauseAnimation (stopTimer { c with state := .pausedWork })
  | .pausedWork =>
    startTimer now c.remainingSeconds (stopPauseAnimation { c with state := .runningWork })
  | .idleBreak =>
    startTimer now (s.breakTime * 60)
      { c with state := .runningBreak, remainingSeconds := (s.breakTime * 60 : Int) }
  | .runningBreak =>
    startPauseAnimation (stopTimer { c with state := .pausedBreak })
  | .pausedBreak =>
    startTimer now c.remainingSeconds (stopPauseAnimation { c with state := .runningBreak })

/-- `reset`: stop both intervals, go to `IDLE_WORK`, cycle 0,
`remainingSeconds = workTime * 60`. -/
def reset (s : ParsedTimerSettings) (c : TimerContext) : TimerContext :=
  { stopPauseAnimation (stopTimer c) with
    state := .idleWork
    currentCycle := 0
    remainingSeconds := (s.workTime * 60 : Int) }

/-- `advanceNextStep`: stop the pause animation and force the completion
handler. -/
def advanceNextStep (s : ParsedTimerSettings) (c : TimerContext) : TimerContext :=
  handleTimerComplete s (stopPauseAnimation c)

/-- `updateStateFromSettings`: refresh `remainingSeconds` from the
settings only in the two idle phases. -/
def updateStateFromSettings (s : ParsedTimerSettings) (c : TimerContext) : TimerContext :=
  match c.state with
  | .idleWork => { c with remainingSeconds := (s.workTime * 60 : Int) }
  | .idleBreak => { c with remainingSeconds := (s.breakTime * 60 : Int) }
  | _ => c

/-! ### Event semantics

Each delivered event carries the raw settings of its payload, already
resolved (`parseSettings` is applied at the top of every handler).  The
hold timeout armed by `onKeyDown` captures the settings of that event in
its closure; `Event.holdFire` carries them explicitly.  A countdown tick
(`Event.tick`) can only occur while the countdown interval is scheduled,
and the hold timeout can only fire while it is pending — both are guarded
in `step`. -/

/-- The events that mutate a `TimerContext`. -/
inductive Event where
  | keyDown
  | holdFire (s : ParsedTimerSettings)
  | keyUp (now : Int) (s : ParsedTimerSettings)
  | tick (now : Int) (s : ParsedTimerSettings)
  | didReceiveSettings (s : ParsedTimerSettings)
  | willAppear (s : ParsedTimerSettings)

/-- One event applied to one instance state. -/
def step (e : Event) (c : TimerContext) : TimerContext :=
  match e with
  | .keyDown =>
    -- onKeyDown: clear the flag, arm the 1.5 s hold timeout
    { c with didHoldAction := false, holdTimeout := true }
  | .holdFire s =>
    -- the armed hold timeout fires before key-up
    if c.holdTimeout then
      let c' := { c with didHoldAction := true, holdTimeout := false }
      if c'.state = .pausedWork ∨ c'.state = .pausedBreak then
        advanceNextStep s c'
      else
        reset s c'
    else c
  | .keyUp now s =>
    -- onKeyUp: cancel the pending hold timeout; short press unless the
    -- hold action already ran
    let c' := { c with holdTimeout := false }
    if c'.didHoldAction then c' else handleShortPress now s c'
  | .tick now s =>
    -- the 50 ms countdown interval body in startTimer
    if c.timer then
      let diffMs := c.targetEndTime - now
      if diffMs ≤ 0 then
        handleTimerComplete s { (stopTimer c) with remainingSeconds := 0 }
      else
        { c with remainingSeconds := Int.fdiv diffMs 1000 }
    else c
  | .didReceiveSettings s =>
    -- onDidReceiveSettings: full reset with the new settings
    reset s c
  | .willAppear s =>
    -- onWillAppear: only refresh idle remaining seconds
    updateStateFromSettings s c

/-- States reachable from a freshly created context by any event
sequence. -/
inductive Reachable : TimerContext → Prop where
  | init : Reachable initialContext
  | next (c : TimerContext) (e : Event) : Reachable c → Reachable (step e c)

/-! ### Render pipeline (`updateView` / the visual signature)

`Math.sin(now / 600)` is not computable here; the signature computation
takes the sampled sine value `sinv` as a parameter.  All other numeric
steps of `updateView` are embedded over `ℚ`. -/

/-- JavaScript `Math.round`: round half toward positive infinity. -/
def jsRound (q : ℚ) : Int :=
  Rat.floor (q + 1 / 2)

/-- `Math.round(x * 20) / 20`: quantization to steps of 0.05. -/
def quantize20 (q : ℚ) : ℚ :=
  (jsRound (q * 20) : ℚ) / 20

/-- `formatTime`: whole seconds when `< 60`, else whole minutes
(`Math.floor`), as a bare number. -/
def formatTime (seconds : Int) : String :=
  if seconds < 60 then toString seconds else toString (Int.fdiv seconds 60)

/-- `getTotalSecondsForCurrentState`: `workTime * 60` for the work
family, `breakTime * 60` otherwise. -/
def getTotalSecondsForCurrentState (s : ParsedTimerSettings) (st : TimerState) : Nat :=
  if isWorkFamily st then s.workTime * 60 else s.breakTime * 60

/-- `contentOpacity`: 1, except `secs - 60` in a running phase while
`60 <= secs < 61` (cross-fade at the seconds/minutes boundary). -/
def contentOpacityOf (st : TimerState) (secs : ℚ) : ℚ :=
  if isRunningState st = true ∧ 60 ≤ secs ∧ secs < 61 then secs - 60 else 1

/-- `globalOpacity`: 1, except `Math.max(0, secs)` in a running phase
while `secs < 2` (final fade-out). -/
def globalOpacityOf (st : TimerState) (secs : ℚ) : ℚ :=
  if isRunningState st = true ∧ secs < 2 then max 0 secs else 1

/-- The fields of `ctx.lastState` (`TimerLastState`): the composite
visual signature compared between consecutive renders. -/
structure TimerLastState where
  progressStep : Int
  title : String
  contentOpacity : ℚ
  globalOpacity : ℚ
  pulseOpacity : ℚ
  indicatorOpacity : ℚ
  state : TimerState
  currentCycle : Nat
deriving DecidableEq, Repr

/-- The inputs `updateView` reads when computing the signature:
`secs` is the `exactSeconds` float from a countdown tick, or
`ctx.remainingSeconds` otherwise; `totalSeconds` comes from
`getTotalSecondsForCurrentState`; `sinv` is the sampled
`Math.sin(now / 600)`. -/
structure RenderInput where
  state : TimerState
  currentCycle : Nat
  remainingSeconds : Int
  secs : ℚ
  totalSeconds : ℚ
  sinv : ℚ
deriving DecidableEq, Repr

/-- The signature `newState` built by `updateView`: quantized progress
step, title, quantized content/global opacities, pulse and indicator
opacities, phase and cycle. -/
def computeSignature (ri : RenderInput) : TimerLastState :=
  let title := formatTime ri.remainingSeconds
  let progress := max 0 (min 1 (ri.secs / ri.totalSeconds))
  let contentOpacity := contentOpacityOf ri.state ri.secs
  let globalOpacity := globalOpacityOf ri.state ri.secs
  let pulseOpacity :=
    if isPausedState ri.state = true then quantize20 (3 / 4 + 1 / 4 * ri.sinv) else 1
  let indicatorOpacity :=
    if isRunningState ri.state = true then quantize20 (3 / 5 + 2 / 5 * ri.sinv) else 1
  { progressStep := jsRound (progress * 400)
    title := title
    contentOpacity := quantize20 contentOpacity
    globalOpacity := quantize20 globalOpacity
    pulseOpacity := pulseOpacity
    indicatorOpacity := indicatorOpacity
    state := ri.state
    currentCycle := ri.currentCycle }

/-- The change-suppression tail of `updateView`: `ctx.lastState` starts
as the empty object (here `none`, which matches no signature); when the
new signature equals the stored one, return without emitting; otherwise
store it and emit exactly one image.  The returned `Bool` records
whether `setImage` was invoked. -/
def renderStep (last : Option TimerLastState) (sig : TimerLastState) :
    Option TimerLastState × Bool :=
  if last = some sig then (last, false) else (some sig, true)

/-! ### Helper facts about the event semantics -/

/-- The two periodic-callback flags always agree with the phase family:
the countdown interval is scheduled exactly in the running phases and
the pause-pulse interval exactly in the paused phases. -/
def timersConsistent (c : TimerContext) : Prop :=
  c.timer = isRunningState c.state ∧ c.pauseAnimationTimer = isPausedState c.state

theorem timersConsistent_initial : timersConsistent initialContext := by
  constructor <;> rfl

theorem timersConsistent_step (e : Event) (c : TimerContext)
    (h : timersConsistent c) : timersConsistent (step e c) := by
  obtain ⟨h1, h2⟩ := h
  cases e with
  | keyDown =>
    exact ⟨h1, h2⟩
  | holdFire s =>
    by_cases hh : c.holdTimeout
    · cases hs : c.state <;>
        simp_all [step, timersConsistent, advanceNextStep, reset, handleTimerComplete,
          stopTimer, stopPauseAnimation, isRunningState, isPausedState]
    · simpa [step, hh, timersConsistent] using ⟨h1, h2⟩
  | keyUp now s =>
    by_cases hd : c.didHoldAction
    · simpa [step, hd, timersConsistent] using ⟨h1, h2⟩
    · cases hs : c.state <;>
        simp_all [step, timersConsistent, handleShortPress, startTimer,
          startPauseAnimation, stopTimer, stopPauseAnimation, isRunningState, isPausedState]
  | tick now s =>
    simp only [step]
    split
    · split
      · cases hs : c.state <;>
          simp_all [timersConsistent, handleTimerComplete, stopTimer,
            isRunningState, isPausedState]
      · exact ⟨h1, h2⟩
    · exact ⟨h1, h2⟩
  | didReceiveSettings s =>
    simp [step, timersConsistent, reset, stopTimer, stopPauseAnimation,
      isRunningState, isPausedState]
  | willAppear s =>
    cases hs : c.state <;>
      simp_all [step, timersConsistent, updateStateFromSettings, isRunningState, isPausedState]

theorem timersConsistent_reachable {c : TimerContext} (h : Reachable c) :
    timersConsistent c := by
  induction h with
  | init => exact timersConsistent_initial
  | next c e _ ih => exact timersConsistent_step e c ih

/-- Concrete settings `{workMinutes := 25, breakMinutes := 5,
cycleCount := 4, soundEnabled := false}` used for concrete traces. -/
def defaultSettings : ParsedTimerSettings :=
  { workTime := 25, breakTime := 5, numCycles := 4, soundEnabled := false }

/-- Concrete reachable state: a short press at time 0 on the fresh
context — `RunningWork`, countdown anchored at `targetEndTime =
1500000`. -/
def runningContext : TimerContext :=
  step (Event.keyUp 0 defaultSettings) (step Event.keyDown initialContext)

/-- Concrete reachable state: a second short press pauses —
`PausedWork`, with the stale `targetEndTime = 1500000` left behind. -/
def pausedContext : TimerContext :=
  step (Event.keyUp 0 defaultSettings) (step Event.keyDown runningContext)

theorem reachable_runningContext : Reachable runningContext :=
  Reachable.next _ _ (Reachable.next _ _ Reachable.init)

theorem reachable_pausedContext : Reachable pausedContext :=
  Reachable.next _ _ (Reachable.next _ _ reachable_runningContext)

/-- A short press: key-down immediately followed by key-up, with the
hold timeout never firing in between. -/
def shortPress (now : Int) (s : ParsedTimerSettings) (c : TimerContext) : TimerContext :=
  step (Event.keyUp now s) (step Event.keyDown c)

/-! ### Claims -/

/-- C1: a short press (press-down then press-up before the 1.5 s
threshold, no hold action performed) follows the six-row transition
table: IdleWork → RunningWork loading `workMinutes * 60` seconds,
RunningWork → PausedWork, PausedWork → RunningWork, IdleBreak →
RunningBreak loading `breakMinutes * 60` seconds, RunningBreak →
PausedBreak, PausedBreak → RunningBreak; with workMinutes = 25 the
IdleWork row yields `remainingSeconds = 1500`. -/
theorem shortPress_follows_transition_table (now : Int) (s : ParsedTimerSettings)
    (c : TimerContext) :
    (c.state = TimerState.idleWork →
      (shortPress now s c).state = TimerState.runningWork ∧
      (shortPress now s c).remainingSeconds = (s.workTime * 60 : Int)) ∧
    (c.state = TimerState.runningWork →
      (shortPress now s c).state = TimerState.pausedWork) ∧
    (c.state = TimerState.pausedWork →
      (shortPress now s c).state = TimerState.runningWork) ∧
    (c.state = TimerState.idleBreak →
      (shortPress now s c).state = TimerState.runningBreak ∧
      (shortPress now s c).remainingSeconds = (s.breakTime * 60 : Int)) ∧
    (c.state = TimerState.runningBreak →
      (shortPress now s c).state = TimerState.pausedBreak) ∧
    (c.state = TimerState.pausedBreak →
      (shortPress now s c).state = TimerState.runningBreak) := by
  cases hs : c.state <;>
    simp [shortPress, step, handleShortPress, startTimer, startPauseAnimation,
      stopTimer, stopPauseAnimation, hs]

theorem shortPress_follows_transition_table_w :
    initialContext.state = TimerState.idleWork ∧
    (shortPress 0 defaultSettings initialContext).state = TimerState.runningWork ∧
    (shortPress 0 defaultSettings initialContext).remainingSeconds = 1500 := by
  have h := (shortPress_follows_transition_table 0 defaultSettings initialContext).1 rfl
  exact ⟨rfl, h.1, h.2.trans (by decide)⟩

/-- C2: phase completion (`handleTimerComplete`, reached both from the
countdown tick hitting `targetEndTime` and from a force-complete of a
paused phase) sends RunningWork/PausedWork to IdleBreak with
`breakMinutes * 60` seconds and cycle unchanged, and
RunningBreak/PausedBreak to IdleWork with
`cycleIndex = (old + 1) % cycleCount` and `workMinutes * 60` seconds;
the countdown tick with `targetEndTime - now <= 0` performs exactly this
completion after zeroing `remainingSeconds`. -/
theorem timerComplete_transitions (now : Int) (s : ParsedTimerSettings)
    (c : TimerContext) :
    ((c.state = TimerState.runningWork ∨ c.state = TimerState.pausedWork) →
      (handleTimerComplete s c).state = TimerState.idleBreak ∧
      (handleTimerComplete s c).remainingSeconds = (s.breakTime * 60 : Int) ∧
      (handleTimerComplete s c).currentCycle = c.currentCycle) ∧
    ((c.state = TimerState.runningBreak ∨ c.state = TimerState.pausedBreak) →
      (handleTimerComplete s c).state = TimerState.idleWork ∧
      (handleTimerComplete s c).currentCycle = (c.currentCycle + 1) % s.numCycles ∧
      (handleTimerComplete s c).remainingSeconds = (s.workTime * 60 : Int)) ∧
    (c.timer = true → c.targetEndTime - now ≤ 0 →
      step (Event.tick now s) c =
        handleTimerComplete s { stopTimer c with remainingSeconds := 0 }) := by
  refine ⟨?_, ?_, ?_⟩
  · rintro (hs | hs) <;> simp [handleTimerComplete, hs]
  · rintro (hs | hs) <;> simp [handleTimerComplete, hs]
  · intro ht hz
    simp [step, ht, hz, stopTimer]

theorem timerComplete_transitions_w :
    ((⟨TimerState.runningBreak, 3, 0, 300, true, false, false, false⟩ :
        TimerContext).state = TimerState.runningBreak ∨
      (⟨TimerState.runningBreak, 3, 0, 300, true, false, false, false⟩ :
        TimerContext).state = TimerState.pausedBreak) ∧
    (handleTimerComplete defaultSettings
        ⟨TimerState.runningBreak, 3, 0, 300, true, false, false, false⟩).state =
      TimerState.idleWork ∧
    (handleTimerComplete defaultSettings
        ⟨TimerState.runningBreak, 3, 0, 300, true, false, false, false⟩).currentCycle = 0 ∧
    (handleTimerComplete defaultSettings
        ⟨TimerState.runningBreak, 3, 0, 300, true, false, false, false⟩).remainingSeconds =
      1500 := by
  have h := (timerComplete_transitions 0 defaultSettings
    ⟨TimerState.runningBreak, 3, 0, 300, true, false, false, false⟩).2.1 (Or.inl rfl)
  exact ⟨Or.inl rfl, h.1, h.2.1.trans (by decide), h.2.2.trans (by decide)⟩

/-- C3: an armed hold timeout firing (long press held 1.5 s) in
PausedWork/PausedBreak force-completes the phase with exactly the state
change of natural countdown expiry (the tick completion
`handleTimerComplete` after zeroing the countdown), while in any idle or
running phase it performs a full reset to IdleWork with cycle 0 and
`workMinutes * 60` seconds, regardless of prior state. -/
theorem longPress_skip_or_reset (s : ParsedTimerSettings) (c : TimerContext)
    (h : c.holdTimeout = true) :
    ((c.state = TimerState.pausedWork ∨ c.state = TimerState.pausedBreak) →
      (step (Event.holdFire s) c).state =
        (handleTimerComplete s { stopTimer c with remainingSeconds := 0 }).state ∧
      (step (Event.holdFire s) c).currentCycle =
        (handleTimerComplete s { stopTimer c with remainingSeconds := 0 }).currentCycle ∧
      (step (Event.holdFire s) c).remainingSeconds =
        (handleTimerComplete s { stopTimer c with remainingSeconds := 0 }).remainingSeconds) ∧
    (¬(c.state = TimerState.pausedWork ∨ c.state = TimerState.pausedBreak) →
      (step (Event.holdFire s) c).state = TimerState.idleWork ∧
      (step (Event.holdFire s) c).currentCycle = 0 ∧
      (step (Event.holdFire s) c).remainingSeconds = (s.workTime * 60 : Int)) := by
  constructor
  · rintro (hs | hs) <;>
      simp [step, h, hs, advanceNextStep, stopPauseAnimation, stopTimer,
        handleTimerComplete]
  · intro hns
    cases hs : c.state <;>
      simp_all [step, h, reset, stopTimer, stopPauseAnimation]

theorem longPress_skip_or_reset_w :
    (step Event.keyDown pausedContext).holdTimeout = true ∧
    (step Event.keyDown pausedContext).state = TimerState.pausedWork ∧
    (step (Event.holdFire defaultSettings) (step Event.keyDown pausedContext)).state =
      TimerState.idleBreak ∧
    (step (Event.holdFire defaultSettings)
        (step Event.keyDown pausedContext)).remainingSeconds = 300 := by
  have h := (longPress_skip_or_reset defaultSettings (step Event.keyDown pausedContext)
    (by decide)).1 (Or.inl (by decide))
  exact ⟨by decide, by decide, h.1.trans (by decide), h.2.2.trans (by decide)⟩

/-- C4: settings resolution is total: absent or unparsable numeric
fields fall back to the defaults (25, 5, 4), `numCycles` is always
clamped into [1, 4], the empty object resolves to
`{25, 5, 4, false}`, `"99"` cycles clamp to 4 and `"0"` clamps to 1. -/
theorem settings_resolution_total :
    (∀ r : RawTimerSettings,
      1 ≤ (parseSettings r).numCycles ∧ (parseSettings r).numCycles ≤ 4) ∧
    (∀ v : String, parseIntJS v = none →
      resolveWorkTime (some v) = 25 ∧ resolveBreakTime (some v) = 5 ∧
      resolveNumCycles (some v) = 4) ∧
    parseSettings ⟨none, none, none, none⟩ = ⟨25, 5, 4, false⟩ ∧
    (parseSettings ⟨none, none, some "99", none⟩).numCycles = 4 ∧
    (parseSettings ⟨none, none, some "0", none⟩).numCycles = 1 := by
  refine ⟨?_, ?_, by decide, by decide, by decide⟩
  · intro r
    show 1 ≤ (min 4 (max 1 ((parseIntJS ((r.numCycles).getD "4")).getD 4))).toNat ∧
      (min 4 (max 1 ((parseIntJS ((r.numCycles).getD "4")).getD 4))).toNat ≤ 4
    have h1 : (1 : Int) ≤ min 4 (max 1 ((parseIntJS ((r.numCycles).getD "4")).getD 4)) :=
      le_min (by norm_num) (le_max_left 1 _)
    have h2 : min 4 (max 1 ((parseIntJS ((r.numCycles).getD "4")).getD 4)) ≤ 4 :=
      min_le_left _ _
    omega
  · intro v hv
    simp [resolveWorkTime, resolveBreakTime, resolveNumCycles, hv]

theorem settings_resolution_total_w :
    parseIntJS "abc" = none ∧ resolveWorkTime (some "abc") = 25 ∧
    resolveBreakTime (some "abc") = 5 ∧ resolveNumCycles (some "abc") = 4 ∧
    1 ≤ (parseSettings ⟨none, none, some "99", none⟩).numCycles := by
  have h := settings_resolution_total
  have h2 := h.2.1 "abc" rfl
  exact ⟨rfl, h2.1, h2.2.1, h2.2.2, (h.1 ⟨none, none, some "99", none⟩).1⟩

/-- C5 (counterexample): it is not true that in every reachable state
`targetEndTime` is set (different from its creation value 0) exactly in
the running phases: `stopTimer` never clears `targetEndTime`, so pausing
a running countdown leaves the stale deadline behind.  Witnessed by the
concrete trace start-at-0 then pause: phase `PausedWork` with
`targetEndTime = 1500000`. -/
theorem targetEndTime_iff_running_cex :
    ¬ (∀ c : TimerContext, Reachable c →
        (c.targetEndTime ≠ 0 ↔
          (c.state = TimerState.runningWork ∨ c.state = TimerState.runningBreak))) := by
  intro hall
  have h := (hall pausedContext reachable_pausedContext).mp (by decide)
  rcases h with h | h <;> exact absurd h (by decide)

/-- C5 (amended): in every reachable state the countdown interval
(`ctx.timer`) is scheduled if and only if the phase is RunningWork or
RunningBreak; `targetEndTime` itself is only overwritten when a
countdown starts, and pausing a running phase leaves it unchanged
(stale) while entering a paused phase. -/
theorem countdown_scheduled_iff_running (c : TimerContext) (h : Reachable c) :
    (c.timer = true ↔
      (c.state = TimerState.runningWork ∨ c.state = TimerState.runningBreak)) ∧
    (∀ now s, (c.state = TimerState.runningWork ∨ c.state = TimerState.runningBreak) →
      (shortPress now s c).targetEndTime = c.targetEndTime ∧
      isPausedState (shortPress now s c).state = true) := by
  obtain ⟨h1, h2⟩ := timersConsistent_reachable h
  constructor
  · rw [h1]; cases c.state <;> simp [isRunningState]
  · intro now s hrun
    rcases hrun with hr | hr <;>
      simp [shortPress, step, handleShortPress, hr, stopTimer, startPauseAnimation,
        isPausedState]

theorem countdown_scheduled_iff_running_w :
    runningContext.state = TimerState.runningWork ∧
    runningContext.timer = true ∧
    (shortPress 0 defaultSettings runningContext).targetEndTime =
      runningContext.targetEndTime := by
  have h := countdown_scheduled_iff_running runningContext reachable_runningContext
  exact ⟨by decide, h.1.mpr (Or.inl (by decide)),
    (h.2 0 defaultSettings (Or.inl (by decide))).1⟩

/-- C6 (counterexample): an appear event does not reset the instance:
`onWillAppear` only calls `updateStateFromSettings`, which refreshes
`remainingSeconds` in the idle phases and changes nothing else.  On the
reachable RunningWork state the phase and the scheduled countdown
survive the appear event, so the claimed reset to IdleWork fails. -/
theorem appear_resets_cex :
    ¬ (∀ (s : ParsedTimerSettings) (c : TimerContext), Reachable c →
        (step (Event.willAppear s) c).state = TimerState.idleWork ∧
        (step (Event.willAppear s) c).remainingSeconds = (s.workTime * 60 : Int)) := by
  intro hall
  have h := (hall defaultSettings runningContext reachable_runningContext).1
  exact absurd h (by decide)

/-- C6 (amended): a settings-changed event fully resets the instance to
IdleWork with cycle 0, `workMinutes * 60` seconds of the new settings
and both periodic callbacks cancelled; an appear event instead leaves
phase, cycle and both callbacks untouched and only refreshes
`remainingSeconds` to `workMinutes * 60` when the phase is IdleWork
(`breakMinutes * 60` when IdleBreak, unchanged otherwise). -/
theorem settingsChanged_resets_appear_refreshes (s : ParsedTimerSettings)
    (c : TimerContext) :
    (step (Event.didReceiveSettings s) c).state = TimerState.idleWork ∧
    (step (Event.didReceiveSettings s) c).currentCycle = 0 ∧
    (step (Event.didReceiveSettings s) c).remainingSeconds = (s.workTime * 60 : Int) ∧
    (step (Event.didReceiveSettings s) c).timer = false ∧
    (step (Event.didReceiveSettings s) c).pauseAnimationTimer = false ∧
    (step (Event.willAppear s) c).state = c.state ∧
    (step (Event.willAppear s) c).currentCycle = c.currentCycle ∧
    (step (Event.willAppear s) c).timer = c.timer ∧
    (step (Event.willAppear s) c).pauseAnimationTimer = c.pauseAnimationTimer ∧
    (step (Event.willAppear s) c).remainingSeconds =
      (if c.state = TimerState.idleWork then (s.workTime * 60 : Int)
       else if c.state = TimerState.idleBreak then (s.breakTime * 60 : Int)
       else c.remainingSeconds) := by
  refine ⟨rfl, rfl, rfl, rfl, rfl, ?_, ?_, ?_, ?_, ?_⟩ <;>
    cases hs : c.state <;>
      simp [step, updateStateFromSettings, hs]

/-- C7: change suppression in `updateView`: after any render, the stored
signature is the signature just computed; a second render whose computed
signature (quantized progress step, title, quantized content/global
opacities, pulse and indicator opacities, phase, cycle) equals the
stored one emits no image and leaves the stored signature unchanged,
while one whose signature differs in any field emits exactly one image
and replaces the stored signature. -/
theorem render_suppression (last : Option TimerLastState) (a b : RenderInput) :
    (renderStep last (computeSignature a)).1 = some (computeSignature a) ∧
    (computeSignature b = computeSignature a →
      renderStep (renderStep last (computeSignature a)).1 (computeSignature b) =
        ((renderStep last (computeSignature a)).1, false)) ∧
    (computeSignature b ≠ computeSignature a →
      renderStep (renderStep last (computeSignature a)).1 (computeSignature b) =
        (some (computeSignature b), true)) := by
  have hfst : (renderStep last (computeSignature a)).1 = some (computeSignature a) := by
    unfold renderStep
    split <;> simp_all
  refine ⟨hfst, ?_, ?_⟩
  · intro he
    rw [hfst, he]
    simp [renderStep]
  · intro hne
    rw [hfst]
    have hne' : ¬ computeSignature a = computeSignature b := fun he => hne he.symm
    simp [renderStep, hne']

theorem render_suppression_w :
    computeSignature ⟨TimerState.runningWork, 0, 90, 90, 1500, 0⟩ =
      computeSignature ⟨TimerState.runningWork, 0, 90, 90, 1500, 0⟩ ∧
    renderStep
        (renderStep none (computeSignature ⟨TimerState.runningWork, 0, 90, 90, 1500, 0⟩)).1
        (computeSignature ⟨TimerState.runningWork, 0, 90, 90, 1500, 0⟩) =
      ((renderStep none
          (computeSignature ⟨TimerState.runningWork, 0, 90, 90, 1500, 0⟩)).1, false) :=
  ⟨rfl,
    (render_suppression none ⟨TimerState.runningWork, 0, 90, 90, 1500, 0⟩
      ⟨TimerState.runningWork, 0, 90, 90, 1500, 0⟩).2.1 rfl⟩

/-- C8: pausing a running phase (short press) and resuming it (second
short press) with no countdown tick in between preserves
`remainingSeconds` exactly: the pause branch never touches it and the
resume branch restarts the countdown from the stored value. -/
theorem pauseResume_preserves_remainingSeconds (now : Int) (s : ParsedTimerSettings)
    (c : TimerContext)
    (h : c.state = TimerState.runningWork ∨ c.state = TimerState.runningBreak) :
    (shortPress now s c).remainingSeconds = c.remainingSeconds ∧
    isPausedState (shortPress now s c).state = true ∧
    (shortPress now s (shortPress now s c)).remainingSeconds = c.remainingSeconds ∧
    (shortPress now s (shortPress now s c)).state = c.state := by
  rcases h with hr | hr <;>
    simp [shortPress, step, handleShortPress, hr, stopTimer, stopPauseAnimation,
      startTimer, startPauseAnimation, isPausedState]

theorem pauseResume_preserves_remainingSeconds_w :
    runningContext.state = TimerState.runningWork ∧
    runningContext.remainingSeconds = 1500 ∧
    (shortPress 7 defaultSettings
        (shortPress 7 defaultSettings runningContext)).remainingSeconds = 1500 := by
  have h := pauseResume_preserves_remainingSeconds 7 defaultSettings runningContext
    (Or.inl (by decide))
  exact ⟨by decide, by decide, h.2.2.1.trans (by decide)⟩

/-- C9: in every reachable state the countdown interval and the
pause-pulse interval are never scheduled together; moreover
`startTimer` synchronously cancels the pause-pulse interval, and a short
press on a running phase cancels the countdown while scheduling the
pulse. -/
theorem countdown_pulse_exclusive (c : TimerContext) (h : Reachable c) :
    ¬ (c.timer = true ∧ c.pauseAnimationTimer = true) ∧
    (∀ (now d : Int) (x : TimerContext),
      (startTimer now d x).pauseAnimationTimer = false) ∧
    (∀ (now : Int) (s : ParsedTimerSettings) (x : TimerContext),
      (x.state = TimerState.runningWork ∨ x.state = TimerState.runningBreak) →
      (shortPress now s x).timer = false ∧
      (shortPress now s x).pauseAnimationTimer = true) := by
  obtain ⟨h1, h2⟩ := timersConsistent_reachable h
  refine ⟨?_, fun now d x => rfl, ?_⟩
  · rintro ⟨ht, hp⟩
    rw [h1] at ht
    rw [h2] at hp
    cases hs : c.state <;> simp_all [isRunningState, isPausedState]
  · intro now s x hr
    rcases hr with hr | hr <;>
      simp [shortPress, step, handleShortPress, hr, stopTimer, startPauseAnimation]

theorem countdown_pulse_exclusive_w :
    ¬ (pausedContext.timer = true ∧ pausedContext.pauseAnimationTimer = true) :=
  (countdown_pulse_exclusive pausedContext reachable_pausedContext).1

/-- C10: in a running phase with fractional seconds `secs < 2`, the
computed `globalOpacity` is `Math.max(0, secs)` with no upper clamp: for
`1 < secs < 2` it equals `secs` and so exceeds 1, and the value 1 only
returns once `secs >= 2`. -/
theorem globalOpacity_unclamped_fade (st : TimerState) (secs : ℚ)
    (h : isRunningState st = true) :
    (secs < 2 → globalOpacityOf st secs = max 0 secs) ∧
    (1 < secs → secs < 2 →
      globalOpacityOf st secs = secs ∧ 1 < globalOpacityOf st secs) ∧
    (2 ≤ secs → globalOpacityOf st secs = 1) := by
  refine ⟨fun hlt => ?_, fun h1 h2 => ?_, fun hge => ?_⟩
  · simp [globalOpacityOf, h, hlt]
  · have hmax : max 0 secs = secs := max_eq_right (le_of_lt (lt_trans one_pos h1))
    refine ⟨?_, ?_⟩ <;> simp [globalOpacityOf, h, h2, hmax, h1]
  · simp [globalOpacityOf, h, not_lt.mpr hge]

theorem globalOpacity_unclamped_fade_w :
    isRunningState TimerState.runningWork = true ∧
    (1 : ℚ) < 3 / 2 ∧ (3 / 2 : ℚ) < 2 ∧
    globalOpacityOf TimerState.runningWork (3 / 2) = 3 / 2 ∧
    (1 : ℚ) < globalOpacityOf TimerState.runningWork (3 / 2) := by
  have h := (globalOpacity_unclamped_fade TimerState.runningWork (3 / 2) rfl).2.1
    (by norm_num) (by norm_num)
  exact ⟨rfl, by norm_num, by norm_num, h.1, h.2⟩

end Pomodoro
